import Mathlib

/-!
Verification of the camera-trigger controller core of
`libraries/AP_Camera/AP_Camera.h` (ArduPilot camera manager).

The repository snapshot contains only the class header `AP_Camera.h`: it
declares the full state of the controller (countdown counters, distance
trigger parameters, feedback-pin bookkeeping, the two trigger counters,
the feedback record) together with the inline bodies of
`set_is_auto_mode`, `set_trigger_distance` and `using_feedback_pin`.
The bodies of the remaining member functions (`update`, `trigger_pic`,
`trigger_pic_cleanup`, `feedback_pin_isr`, `feedback_pin_timer`,
`log_picture`, ...) live in `AP_Camera.cpp`, which is not part of the
snapshot; those operations are modelled from the specification, as noted
on each definition.  Storage widths come from the header: the two pulse
countdowns are `uint8_t` (values kept below 256, stores reduce mod 256),
the feedback pin is a signed 8-bit parameter, and `using_feedback_pin`
is exactly `_feedback_pin > 0`.
-/

namespace APCamera

/-- Locations are modelled as flat-earth coordinates in centimeters
(east, north).  The header stores a `Location`; the geodesic helpers are
external to this core, so a planar model suffices for the trigger
logic, which only compares a horizontal distance against a threshold. -/
structure Location where
  x : Int
  y : Int
deriving DecidableEq, Repr

/-- Squared horizontal distance between two locations, in cm². -/
def distSq (a b : Location) : Int :=
  (b.x - a.x) ^ 2 + (b.y - a.y) ^ 2

/-- `distGE a b t` holds when the horizontal distance from `a` to `b` is
at least `t` centimeters (for the nonnegative thresholds the controller
is configured with).  Encoded without square roots by comparing squares,
which preserves the order on nonnegative reals. -/
def distGE (a b : Location) (t : Int) : Bool :=
  decide (t ^ 2 ≤ distSq a b)

/-- The configuration parameters of `AP_Camera` (header lines 109-136):
`_trigger_type`, `_trigger_duration`, `_relay_on`, `_servo_on_pwm`,
`_servo_off_pwm`, `_auto_mode_only`, `_trigg_dist`, `_min_interval`,
`_max_roll`, `_feedback_pin`, `_feedback_polarity`, plus the periodic
rate at which `update` is called (reference 50 Hz).  Distances are in
centimeters, times in milliseconds, durations in tenths of a second. -/
structure Config where
  trigger_type : Int
  trigger_duration : Nat
  relay_on : Int
  servo_on_pwm : Int
  servo_off_pwm : Int
  auto_mode_only : Bool
  trigg_dist : Int
  min_interval : Int
  max_roll : Int
  feedback_pin : Int
  feedback_polarity : Bool
  rate : Nat
deriving DecidableEq, Repr

/-- From the header (lines 175-178): `using_feedback_pin` returns
`_feedback_pin > 0`. -/
def using_feedback_pin (cfg : Config) : Bool :=
  decide (cfg.feedback_pin > 0)

/-- The feedback record of the header (lines 141-148): timestamp,
location, roll/pitch/yaw sensors and the sequence number
`camera_trigger_logged`. -/
structure FeedbackRecord where
  timestamp_us : Int
  location : Location
  roll_sensor : Int
  pitch_sensor : Int
  yaw_sensor : Int
  camera_trigger_logged : Nat
deriving DecidableEq, Repr

/-- A `Write_Trigger` log entry: time and position only (spec 4.4). -/
structure TriggerLogEntry where
  time_ms : Int
  location : Location
deriving DecidableEq, Repr

/-- The mutable state of the controller, from the header member list:
`_trigger_counter` and `_trigger_counter_cam_function` (both `uint8_t`,
so always < 256), `_is_in_auto_mode`, `_last_photo_time`,
`_last_location` (`none` before the first shot), `_image_index`,
`_camera_trigger_count`, `_camera_trigger_logged`,
`_feedback_trigger_timestamp_us`, the `feedback` record list handed to
the telemetry reporter, the trigger-event log, and `_last_pin_state`.
`edges_accepted` counts debounce-accepted feedback edges and
`edge_pending` is the "accepted polarity edge awaiting the deferred
periodic check" flag of spec 4.3. -/
structure CamState where
  trigger_counter : Nat
  trigger_counter_cam_function : Nat
  is_in_auto_mode : Bool
  last_photo_time : Int
  last_location : Option Location
  image_index : Nat
  camera_trigger_count : Nat
  camera_trigger_logged : Nat
  edges_accepted : Nat
  edge_pending : Bool
  feedback_trigger_timestamp_us : Int
  feedback_records : List FeedbackRecord
  trigger_log : List TriggerLogEntry
  last_pin_state : Bool
deriving DecidableEq, Repr

/-- Startup state: no previous shot, all counters zero. -/
def init : CamState :=
  { trigger_counter := 0
    trigger_counter_cam_function := 0
    is_in_auto_mode := false
    last_photo_time := 0
    last_location := none
    image_index := 0
    camera_trigger_count := 0
    camera_trigger_logged := 0
    edges_accepted := 0
    edge_pending := false
    feedback_trigger_timestamp_us := 0
    feedback_records := []
    trigger_log := []
    last_pin_state := false }

/-- The trigger pulse is Open exactly while the countdown is nonzero. -/
def Open (s : CamState) : Prop :=
  s.trigger_counter ≠ 0

/-- The trigger pulse is Idle when the countdown is zero. -/
def Idle (s : CamState) : Prop :=
  s.trigger_counter = 0

instance (s : CamState) : Decidable (Open s) := by
  unfold Open; infer_instance

instance (s : CamState) : Decidable (Idle s) := by
  unfold Idle; infer_instance

/-- The hold duration expressed in ticks: `round(D*R/10)` where `D` is
the configured duration in tenths of a second and `R` the tick rate
(round half up; exact at the reference rate of 50 Hz). -/
def pulseTicks (D R : Nat) : Nat :=
  (D * R + 5) / 10

/-- Modelled from the spec: the body of `trigger_pic` is in the missing
`AP_Camera.cpp`.  Spec 4.1: `fire()` is a no-op while a pulse is
already open; on `fire()` while Idle it drives the output, sets the
countdown to the hold duration in ticks, increments the "triggers
fired" counter, records last-shot time and location, bumps the image
index, and (spec 4.4) emits a trigger-event log entry.  Per the header
the countdown is stored in the `uint8_t` `_trigger_counter`, so the
stored value is the tick count reduced mod 256. -/
def trigger_pic (cfg : Config) (now : Int) (loc : Location) (s : CamState) : CamState :=
  if s.trigger_counter ≠ 0 then s
  else
    { s with
      trigger_counter := pulseTicks cfg.trigger_duration cfg.rate % 256
      camera_trigger_count := s.camera_trigger_count + 1
      last_photo_time := now
      last_location := some loc
      image_index := s.image_index + 1
      trigger_log := s.trigger_log ++ [⟨now, loc⟩] }

/-- Modelled from the spec: the body of `trigger_pic_cleanup` is in the
missing `AP_Camera.cpp`.  Spec 4.1: each `update()` tick while Open
decrements the countdown; at zero the output is driven back to its off
level (Idle).  The alternate camera-function countdown has the same
shape and is decremented independently. -/
def trigger_pic_cleanup (s : CamState) : CamState :=
  { s with
    trigger_counter := s.trigger_counter - 1
    trigger_counter_cam_function := s.trigger_counter_cam_function - 1 }

/-- Modelled from the spec: the body of `cam_mode_toggle` is in the
missing `AP_Camera.cpp`.  Spec 4.1: a second, independent countdown of
the same shape drives the alternate camera function, stored in the
`uint8_t` `_trigger_counter_cam_function` of the header. -/
def cam_mode_toggle (cfg : Config) (s : CamState) : CamState :=
  if s.trigger_counter_cam_function ≠ 0 then s
  else
    { s with
      trigger_counter_cam_function := pulseTicks cfg.trigger_duration cfg.rate % 256 }

/-- From the header (lines 84-87): `set_is_auto_mode` assigns the flag
`_is_in_auto_mode = enable` and nothing else. -/
def set_is_auto_mode (enable : Bool) (s : CamState) : CamState :=
  { s with is_in_auto_mode := enable }

/-- Modelled from the spec: the distance condition of spec 4.2.  With no
prior shot location the distance is treated as satisfied (spec 4.2,
spec 7: missing prior state is "condition satisfied"). -/
def distOK (s : CamState) (loc : Location) (t : Int) : Bool :=
  match s.last_location with
  | none => true
  | some ll => distGE ll loc t

/-- Modelled from the spec: the distance-trigger decision inside the
missing `AP_Camera.cpp` `update` body.  Spec 4.2: fire when ALL hold:
(a) a non-zero distance threshold is configured; (b) horizontal
distance from the last-shot location ≥ threshold; (c) elapsed time
since the last shot ≥ the minimum interval; (d) roll magnitude ≤ max
roll, skipped when max-roll is configured zero; (e) if restricted to
auto mode, the vehicle is in auto mode. -/
def shouldFire (cfg : Config) (now : Int) (loc : Location) (roll : Int)
    (s : CamState) : Bool :=
  decide (cfg.trigg_dist ≠ 0) &&
  distOK s loc cfg.trigg_dist &&
  decide (cfg.min_interval ≤ now - s.last_photo_time) &&
  (decide (cfg.max_roll = 0) || decide (|roll| ≤ cfg.max_roll)) &&
  (!cfg.auto_mode_only || s.is_in_auto_mode)

/-- Modelled from the spec: on a satisfied distance condition the
distance trigger calls `TriggerActuator.fire()` (spec 4.2). -/
def evaluate (cfg : Config) (now : Int) (loc : Location) (roll : Int)
    (s : CamState) : CamState :=
  if shouldFire cfg now loc roll s then trigger_pic cfg now loc s else s

/-- Modelled from the spec: the body of `feedback_pin_isr` is in the
missing `AP_Camera.cpp`.  Spec 4.3: the handler records timestamp and
pin level only; a raw edge is accepted only when the level differs from
the last accepted level (`_last_pin_state` in the header), and an
accepted edge matching the configured polarity leaves a pending
confirmation for the deferred periodic check.  With no feedback pin
configured the component is inert (spec 7). -/
def feedback_pin_isr (cfg : Config) (level : Bool) (ts : Int) (s : CamState) : CamState :=
  if !using_feedback_pin cfg then s
  else if level = s.last_pin_state then s
  else
    { s with
      last_pin_state := level
      edges_accepted := s.edges_accepted + 1
      edge_pending := if level = cfg.feedback_polarity then true else s.edge_pending
      feedback_trigger_timestamp_us :=
        if level = cfg.feedback_polarity then ts else s.feedback_trigger_timestamp_us }

/-- Modelled from the spec: a single confirmation (spec 4.3): snapshot
location and attitude, increment "triggers logged", and hand a
`FeedbackRecord` whose sequence number is the new counter value to the
telemetry reporter. -/
def confirm_one (ts : Int) (loc : Location) (roll pitch yaw : Int)
    (s : CamState) : CamState :=
  { s with
    camera_trigger_logged := s.camera_trigger_logged + 1
    feedback_records :=
      s.feedback_records ++ [⟨ts, loc, roll, pitch, yaw, s.camera_trigger_logged + 1⟩]
    edge_pending := false }

/-- `k` successive confirmations. -/
def confirmN (k : Nat) (ts : Int) (loc : Location) (roll pitch yaw : Int)
    (s : CamState) : CamState :=
  match k with
  | 0 => s
  | k + 1 => confirmN k ts loc roll pitch yaw (confirm_one ts loc roll pitch yaw s)

/-- Modelled from the spec: the deferred periodic feedback check of the
missing `AP_Camera.cpp` (`feedback_pin_timer` / `update`).  With a
feedback pin: a pending accepted polarity edge confirms one blind
trigger (the counter difference `fired - logged` is the blind-trigger
backlog of spec 3; a pending edge with no blind trigger is dropped as
spurious).  Without a feedback pin (spec 7): every fired trigger is
deemed confirmed immediately, so the check catches the logged counter
up to the fired counter, emitting one record per confirmation. -/
def feedback_update (cfg : Config) (now : Int) (loc : Location)
    (roll pitch yaw : Int) (s : CamState) : CamState :=
  if using_feedback_pin cfg then
    if s.edge_pending && decide (s.camera_trigger_logged < s.camera_trigger_count) then
      confirm_one s.feedback_trigger_timestamp_us loc roll pitch yaw s
    else
      { s with edge_pending := false }
  else
    confirmN (s.camera_trigger_count - s.camera_trigger_logged) now loc roll pitch yaw s

/-- Modelled from the spec: the body of `update` is in the missing
`AP_Camera.cpp`.  Spec 2/4: each periodic tick evaluates the distance
trigger (which may fire), advances the hold/release countdowns, and
runs the deferred feedback check. -/
def update (cfg : Config) (now : Int) (loc : Location) (roll pitch yaw : Int)
    (s : CamState) : CamState :=
  feedback_update cfg now loc roll pitch yaw
    (trigger_pic_cleanup (evaluate cfg now loc roll s))

/-- The externally driven events of the controller: a manual
`take_picture`, a feedback-pin interrupt, a periodic `update` tick
(carrying the vehicle state it reads), `set_is_auto_mode`, and the
momentary `cam_mode_toggle`. -/
inductive Event where
  | takePicture (now : Int) (loc : Location)
  | isr (level : Bool) (ts : Int)
  | tick (now : Int) (loc : Location) (roll pitch yaw : Int)
  | setAutoMode (b : Bool)
  | camModeToggle
deriving DecidableEq, Repr

/-- One controller step per event. -/
def step (cfg : Config) (s : CamState) : Event → CamState
  | .takePicture now loc => trigger_pic cfg now loc s
  | .isr level ts => feedback_pin_isr cfg level ts s
  | .tick now loc roll pitch yaw => update cfg now loc roll pitch yaw s
  | .setAutoMode b => set_is_auto_mode b s
  | .camModeToggle => cam_mode_toggle cfg s

/-- Run a trace of events from startup. -/
def run (cfg : Config) (evs : List Event) : CamState :=
  evs.foldl (step cfg) init

/-- `seqFrom a n = [a, a+1, ..., a+n-1]`, the expected sequence-number
pattern of the feedback records. -/
def seqFrom (a : Nat) : Nat → List Nat
  | 0 => []
  | n + 1 => a :: seqFrom (a + 1) n

/-- A standard configuration: default hold duration 10 tenths of a
second (`AP_CAMERA_TRIGGER_DEFAULT_DURATION`), reference 50 Hz rate, no
feedback pin (`AP_CAMERA_FEEDBACK_DEFAULT_FEEDBACK_PIN = -1`). -/
def cfgStd : Config :=
  { trigger_type := 0
    trigger_duration := 10
    relay_on := 1
    servo_on_pwm := 1300
    servo_off_pwm := 1100
    auto_mode_only := false
    trigg_dist := 1000
    min_interval := 1000
    max_roll := 0
    feedback_pin := -1
    feedback_polarity := true
    rate := 50 }

/-- Like `cfgStd` but with hold duration 52 tenths of a second, whose
tick count at 50 Hz is 260 > 255. -/
def cfg52 : Config :=
  { cfgStd with trigger_duration := 52 }

/-- Like `cfgStd` but with feedback pin 54 configured. -/
def cfgPin : Config :=
  { cfgStd with feedback_pin := 54 }

/-- The origin location. -/
def loc0 : Location := ⟨0, 0⟩

lemma cleanup_iterate_counter (k : Nat) (s : CamState) :
    (trigger_pic_cleanup^[k] s).trigger_counter = s.trigger_counter - k := by
  induction k generalizing s with
  | zero => simp
  | succ k ih =>
      rw [Function.iterate_succ_apply, ih]
      simp [trigger_pic_cleanup, Nat.sub_sub, Nat.add_comm]

/-- C1 (amended): for every configured hold duration D (tenths of a
second) and tick rate R, whenever the tick count `round(D*R/10)` fits
the 8-bit countdown (≤ 255), after `fire()` (`trigger_pic`) is accepted
while Idle the pulse stays Open for exactly `round(D*R/10)` cleanup
ticks and then returns to Idle; and — for every configuration, with no
bound on the tick count — a `fire()` call issued while the pulse is
Open changes no state (the open pulse is neither extended nor
restarted).  The unamended hold-length claim, with no bound on the tick
count, fails: the `uint8_t` countdown wraps mod 256, see the
counterexample. -/
theorem trigger_pulse_exact_hold (cfg : Config) (now : Int) (loc : Location)
    (s : CamState) (hIdle : Idle s) :
    (pulseTicks cfg.trigger_duration cfg.rate ≤ 255 →
      (∀ k, k < pulseTicks cfg.trigger_duration cfg.rate →
          Open (trigger_pic_cleanup^[k] (trigger_pic cfg now loc s))) ∧
      Idle (trigger_pic_cleanup^[pulseTicks cfg.trigger_duration cfg.rate]
          (trigger_pic cfg now loc s))) ∧
    (∀ s2 : CamState, Open s2 → trigger_pic cfg now loc s2 = s2) := by
  unfold Idle at hIdle
  constructor
  · intro hfit
    have hcnt : (trigger_pic cfg now loc s).trigger_counter
        = pulseTicks cfg.trigger_duration cfg.rate := by
      simp [trigger_pic, hIdle, Nat.mod_eq_of_lt (Nat.lt_succ_of_le hfit)]
    constructor
    · intro k hk
      unfold Open
      rw [cleanup_iterate_counter, hcnt]
      omega
    · unfold Idle
      rw [cleanup_iterate_counter, hcnt]
      omega
  · intro s2 h2
    unfold Open at h2
    simp [trigger_pic, h2]

/-- C1 counterexample: with hold duration 52 tenths of a second at the
50 Hz reference rate the tick count is 260, but the stored `uint8_t`
countdown wraps to 260 % 256 = 4: the pulse is already Idle after 4
update ticks, although 4 < 260, refuting "stays Open for exactly
round(D*R/10) ticks". -/
theorem trigger_pulse_wrap_cex :
    pulseTicks cfg52.trigger_duration cfg52.rate = 260 ∧
    (4 : Nat) < 260 ∧
    Idle (trigger_pic_cleanup^[4] (trigger_pic cfg52 0 loc0 init)) := by
  decide

/-- C1 witness: at the default duration (10 tenths = 50 ticks at 50 Hz)
the hypotheses hold and the pulse closes after exactly 50 ticks; and
the fire-while-Open no-op holds even for the wrapping configuration
`cfg52` (tick count 260 > 255), exercising the unconditional part. -/
theorem trigger_pulse_exact_hold_witness :
    Idle init ∧ pulseTicks cfgStd.trigger_duration cfgStd.rate ≤ 255 ∧
    Idle (trigger_pic_cleanup^[pulseTicks cfgStd.trigger_duration cfgStd.rate]
        (trigger_pic cfgStd 0 loc0 init)) ∧
    Open (trigger_pic cfg52 0 loc0 init) ∧
    trigger_pic cfg52 0 loc0 (trigger_pic cfg52 0 loc0 init)
        = trigger_pic cfg52 0 loc0 init :=
  ⟨by decide, by decide,
    ((trigger_pulse_exact_hold cfgStd 0 loc0 init (by decide)).1 (by decide)).2,
    by decide,
    (trigger_pulse_exact_hold cfg52 0 loc0 init (by decide)).2
      (trigger_pic cfg52 0 loc0 init) (by decide)⟩

/-- C10: both tick countdowns of the header are `uint8_t`, so when the
configured hold duration gives a tick count above 255 the stored
countdown is the tick count reduced modulo 256: it is always < 256,
differs from the requested tick count, and wraps rather than
saturating. -/
theorem countdown_uint8_wrap (cfg : Config) (now : Int) (loc : Location)
    (s : CamState) (h1 : Idle s) (h2 : s.trigger_counter_cam_function = 0)
    (hbig : 255 < pulseTicks cfg.trigger_duration cfg.rate) :
    (trigger_pic cfg now loc s).trigger_counter
        = pulseTicks cfg.trigger_duration cfg.rate % 256 ∧
    (cam_mode_toggle cfg s).trigger_counter_cam_function
        = pulseTicks cfg.trigger_duration cfg.rate % 256 ∧
    (trigger_pic cfg now loc s).trigger_counter < 256 ∧
    (trigger_pic cfg now loc s).trigger_counter
        ≠ pulseTicks cfg.trigger_duration cfg.rate := by
  unfold Idle at h1
  have hmod : pulseTicks cfg.trigger_duration cfg.rate % 256 < 256 :=
    Nat.mod_lt _ (by norm_num)
  have hstore : (trigger_pic cfg now loc s).trigger_counter
      = pulseTicks cfg.trigger_duration cfg.rate % 256 := by
    simp [trigger_pic, h1]
  refine ⟨hstore, by simp [cam_mode_toggle, h2], ?_, ?_⟩
  · rw [hstore]; exact hmod
  · rw [hstore]; omega

/-- C10 witness: duration 52 tenths at 50 Hz yields 260 ticks; the
stored countdown is 260 % 256 = 4 (not the saturation value 255). -/
theorem countdown_uint8_wrap_witness :
    255 < pulseTicks cfg52.trigger_duration cfg52.rate ∧
    (trigger_pic cfg52 0 loc0 init).trigger_counter
        = pulseTicks cfg52.trigger_duration cfg52.rate % 256 ∧
    pulseTicks cfg52.trigger_duration cfg52.rate % 256 = 4 :=
  ⟨by decide,
    (countdown_uint8_wrap cfg52 0 loc0 init (by decide) (by decide) (by decide)).1,
    by decide⟩

lemma shouldFire_eq_true_iff (cfg : Config) (now : Int) (loc : Location)
    (roll : Int) (s : CamState) :
    shouldFire cfg now loc roll s = true ↔
      (cfg.trigg_dist ≠ 0 ∧ distOK s loc cfg.trigg_dist = true ∧
        cfg.min_interval ≤ now - s.last_photo_time ∧
        (cfg.max_roll = 0 ∨ |roll| ≤ cfg.max_roll) ∧
        (cfg.auto_mode_only = true → s.is_in_auto_mode = true)) := by
  unfold shouldFire
  cases h : cfg.auto_mode_only <;>
    simp [Bool.and_eq_true, Bool.or_eq_true, decide_eq_true_eq, h, and_assoc]

lemma evaluate_count_of_shouldFire (cfg : Config) (now : Int) (loc : Location)
    (roll : Int) (s : CamState) (hIdle : s.trigger_counter = 0)
    (h : shouldFire cfg now loc roll s = true) :
    (evaluate cfg now loc roll s).camera_trigger_count
        = s.camera_trigger_count + 1 := by
  simp [evaluate, h, trigger_pic, hIdle]

lemma evaluate_of_not_shouldFire (cfg : Config) (now : Int) (loc : Location)
    (roll : Int) (s : CamState)
    (h : shouldFire cfg now loc roll s = false) :
    evaluate cfg now loc roll s = s := by
  simp [evaluate, h]

/-- C2: for a periodic evaluation with a prior shot recorded (and the
actuator Idle, so that the requested fire is accepted), the distance
trigger fires a shot if and only if: the configured distance threshold
is non-zero, the horizontal distance from the last-shot location is at
least the threshold, the elapsed time since the last shot is at least
the minimum interval, the roll magnitude is within the maximum roll
(skipped when max-roll is zero), and, under the auto-mode-only flag,
the vehicle is in auto mode; when the conditions fail, the evaluation
changes no state. -/
theorem distance_trigger_fires_iff (cfg : Config) (now : Int) (loc : Location)
    (roll : Int) (s : CamState) (ll : Location)
    (hprev : s.last_location = some ll) (hIdle : Idle s) :
    ((evaluate cfg now loc roll s).camera_trigger_count
        = s.camera_trigger_count + 1 ↔
      (cfg.trigg_dist ≠ 0 ∧ distGE ll loc cfg.trigg_dist = true ∧
        cfg.min_interval ≤ now - s.last_photo_time ∧
        (cfg.max_roll = 0 ∨ |roll| ≤ cfg.max_roll) ∧
        (cfg.auto_mode_only = true → s.is_in_auto_mode = true))) ∧
    (¬ (cfg.trigg_dist ≠ 0 ∧ distGE ll loc cfg.trigg_dist = true ∧
        cfg.min_interval ≤ now - s.last_photo_time ∧
        (cfg.max_roll = 0 ∨ |roll| ≤ cfg.max_roll) ∧
        (cfg.auto_mode_only = true → s.is_in_auto_mode = true)) →
      evaluate cfg now loc roll s = s) := by
  unfold Idle at hIdle
  have hdOK : distOK s loc cfg.trigg_dist = distGE ll loc cfg.trigg_dist := by
    simp [distOK, hprev]
  have hiff := shouldFire_eq_true_iff cfg now loc roll s
  rw [hdOK] at hiff
  constructor
  · constructor
    · intro hinc
      rcases Bool.eq_false_or_eq_true (shouldFire cfg now loc roll s) with h | h
      · exact hiff.mp h
      · rw [evaluate_of_not_shouldFire cfg now loc roll s h] at hinc
        omega
    · intro hc
      exact evaluate_count_of_shouldFire cfg now loc roll s hIdle (hiff.mpr hc)
  · intro hc
    apply evaluate_of_not_shouldFire
    rcases Bool.eq_false_or_eq_true (shouldFire cfg now loc roll s) with h | h
    · exact absurd (hiff.mp h) hc
    · exact h

/-- A state with a prior shot recorded at the origin at time 0. -/
def sPrev : CamState :=
  { init with last_location := some loc0 }

/-- A location 15 m east of the origin. -/
def loc15 : Location := ⟨1500, 0⟩

/-- C2 witness: with threshold 10 m, minimum interval 1 s, max-roll
disabled and no auto-mode restriction, a point 15 m away reached 2 s
after the previous shot fires exactly one shot. -/
theorem distance_trigger_fires_iff_witness :
    sPrev.last_location = some loc0 ∧ Idle sPrev ∧
    (evaluate cfgStd 2000 loc15 5 sPrev).camera_trigger_count
        = sPrev.camera_trigger_count + 1 :=
  ⟨rfl, by decide,
    ((distance_trigger_fires_iff cfgStd 2000 loc15 5 sPrev loc0 rfl (by decide)).1).mpr
      ⟨by decide, by decide, by decide, by decide, by decide⟩⟩

/-- C7: the first-ever distance-trigger evaluation (no prior shot
location recorded) treats the distance condition as satisfied: it fires
a shot for any current location, provided the non-zero threshold,
minimum-interval, roll-limit and auto-mode conditions hold (with the
actuator Idle so the fire is accepted). -/
theorem first_evaluation_fires (cfg : Config) (now : Int) (loc : Location)
    (roll : Int) (s : CamState)
    (hfirst : s.last_location = none) (hIdle : Idle s)
    (hdist : cfg.trigg_dist ≠ 0)
    (hint : cfg.min_interval ≤ now - s.last_photo_time)
    (hroll : cfg.max_roll = 0 ∨ |roll| ≤ cfg.max_roll)
    (hauto : cfg.auto_mode_only = true → s.is_in_auto_mode = true) :
    (evaluate cfg now loc roll s).camera_trigger_count
        = s.camera_trigger_count + 1 := by
  unfold Idle at hIdle
  apply evaluate_count_of_shouldFire cfg now loc roll s hIdle
  rw [shouldFire_eq_true_iff]
  exact ⟨hdist, by simp [distOK, hfirst], hint, hroll, hauto⟩

/-- C7 witness: from the startup state (no prior shot) the evaluation
at the origin itself (distance traveled 0) still fires a shot. -/
theorem first_evaluation_fires_witness :
    init.last_location = none ∧ Idle init ∧
    (evaluate cfgStd 2000 loc0 5 init).camera_trigger_count
        = init.camera_trigger_count + 1 :=
  ⟨rfl, by decide,
    first_evaluation_fires cfgStd 2000 loc0 5 init rfl (by decide) (by decide)
      (by decide) (by decide) (by decide)⟩

/-- The controller invariant: the logged counter never exceeds the
fired counter; the feedback-record list has one record per logged
trigger, with sequence numbers 1, 2, ..., logged; and the trigger log
has one entry per fired trigger. -/
def Inv (s : CamState) : Prop :=
  s.camera_trigger_logged ≤ s.camera_trigger_count ∧
  s.feedback_records.length = s.camera_trigger_logged ∧
  s.feedback_records.map FeedbackRecord.camera_trigger_logged
      = seqFrom 1 s.feedback_records.length ∧
  s.trigger_log.length = s.camera_trigger_count

lemma seqFrom_snoc (n : Nat) : ∀ a : Nat, seqFrom a n ++ [a + n] = seqFrom a (n + 1) := by
  induction n with
  | zero => intro a; simp [seqFrom]
  | succ n ih =>
      intro a
      show (a :: seqFrom (a + 1) n) ++ [a + (n + 1)] = a :: seqFrom (a + 1) (n + 1)
      rw [List.cons_append]
      congr 1
      rw [show a + (n + 1) = (a + 1) + n by omega]
      exact ih (a + 1)

lemma Inv_confirm_one (ts : Int) (loc : Location) (roll pitch yaw : Int)
    (s : CamState) (hInv : Inv s)
    (hlt : s.camera_trigger_logged < s.camera_trigger_count) :
    Inv (confirm_one ts loc roll pitch yaw s) := by
  obtain ⟨h1, h2, h3, h4⟩ := hInv
  refine ⟨by simp [confirm_one]; omega, by simp [confirm_one, h2], ?_, by simp [confirm_one, h4]⟩
  simp only [confirm_one, List.map_append, List.length_append, List.map_cons, List.map_nil,
    List.length_cons, List.length_nil]
  rw [h3, h2]
  have h := seqFrom_snoc s.camera_trigger_logged 1
  rw [Nat.add_comm 1 s.camera_trigger_logged] at h
  simpa using h

lemma confirmN_succ (k : Nat) (ts : Int) (loc : Location) (roll pitch yaw : Int)
    (s : CamState) :
    confirmN (k + 1) ts loc roll pitch yaw s
      = confirmN k ts loc roll pitch yaw (confirm_one ts loc roll pitch yaw s) :=
  rfl

lemma confirmN_fields (k : Nat) (ts : Int) (loc : Location) (roll pitch yaw : Int) :
    ∀ s : CamState,
      (confirmN k ts loc roll pitch yaw s).camera_trigger_count = s.camera_trigger_count ∧
      (confirmN k ts loc roll pitch yaw s).camera_trigger_logged
          = s.camera_trigger_logged + k ∧
      (confirmN k ts loc roll pitch yaw s).trigger_log = s.trigger_log ∧
      (confirmN k ts loc roll pitch yaw s).feedback_records.length
          = s.feedback_records.length + k := by
  induction k with
  | zero => intro s; simp [confirmN]
  | succ k ih =>
      intro s
      obtain ⟨hc, hl, ht, hr⟩ := ih (confirm_one ts loc roll pitch yaw s)
      rw [confirmN_succ]
      refine ⟨by rw [hc]; rfl, by rw [hl]; simp [confirm_one]; omega,
        by rw [ht]; rfl, by rw [hr]; simp [confirm_one]; omega⟩

lemma Inv_confirmN (k : Nat) (ts : Int) (loc : Location) (roll pitch yaw : Int) :
    ∀ s : CamState, Inv s →
      s.camera_trigger_logged + k ≤ s.camera_trigger_count →
      Inv (confirmN k ts loc roll pitch yaw s) := by
  induction k with
  | zero => intro s h _; exact h
  | succ k ih =>
      intro s hInv hle
      rw [confirmN_succ]
      apply ih
      · exact Inv_confirm_one ts loc roll pitch yaw s hInv (by omega)
      · simp [confirm_one]; omega

lemma Inv_trigger_pic (cfg : Config) (now : Int) (loc : Location)
    (s : CamState) (h : Inv s) : Inv (trigger_pic cfg now loc s) := by
  obtain ⟨h1, h2, h3, h4⟩ := h
  unfold trigger_pic
  split
  · exact ⟨h1, h2, h3, h4⟩
  · exact ⟨by simp; omega, h2, h3, by simp [h4]⟩

lemma Inv_cleanup (s : CamState) (h : Inv s) : Inv (trigger_pic_cleanup s) := h

lemma Inv_set_auto (b : Bool) (s : CamState) (h : Inv s) :
    Inv (set_is_auto_mode b s) := h

lemma Inv_cam_toggle (cfg : Config) (s : CamState) (h : Inv s) :
    Inv (cam_mode_toggle cfg s) := by
  unfold cam_mode_toggle
  split
  · exact h
  · exact h

lemma Inv_isr (cfg : Config) (level : Bool) (ts : Int) (s : CamState)
    (h : Inv s) : Inv (feedback_pin_isr cfg level ts s) := by
  unfold feedback_pin_isr
  split
  · exact h
  · split
    · exact h
    · exact h

lemma Inv_feedback_update (cfg : Config) (now : Int) (loc : Location)
    (roll pitch yaw : Int) (s : CamState) (h : Inv s) :
    Inv (feedback_update cfg now loc roll pitch yaw s) := by
  unfold feedback_update
  split
  · split
    · rename_i hguard
      have hlt : s.camera_trigger_logged < s.camera_trigger_count := by
        have := (Bool.and_eq_true _ _).mp hguard
        exact of_decide_eq_true this.2
      exact Inv_confirm_one _ _ _ _ _ s h hlt
    · exact h
  · refine Inv_confirmN _ _ _ _ _ _ s h ?_
    obtain ⟨h1, _, _, _⟩ := h
    omega

lemma Inv_evaluate (cfg : Config) (now : Int) (loc : Location) (roll : Int)
    (s : CamState) (h : Inv s) : Inv (evaluate cfg now loc roll s) := by
  unfold evaluate
  split
  · exact Inv_trigger_pic cfg now loc s h
  · exact h

lemma Inv_update (cfg : Config) (now : Int) (loc : Location)
    (roll pitch yaw : Int) (s : CamState) (h : Inv s) :
    Inv (update cfg now loc roll pitch yaw s) :=
  Inv_feedback_update cfg now loc roll pitch yaw _
    (Inv_cleanup _ (Inv_evaluate cfg now loc roll s h))

lemma Inv_step (cfg : Config) (s : CamState) (e : Event) (h : Inv s) :
    Inv (step cfg s e) := by
  cases e with
  | takePicture now loc => exact Inv_trigger_pic cfg now loc s h
  | isr level ts => exact Inv_isr cfg level ts s h
  | tick now loc roll pitch yaw => exact Inv_update cfg now loc roll pitch yaw s h
  | setAutoMode b => exact Inv_set_auto b s h
  | camModeToggle => exact Inv_cam_toggle cfg s h

lemma Inv_init : Inv init := ⟨Nat.le_refl 0, rfl, rfl, rfl⟩

lemma Inv_foldl (cfg : Config) : ∀ (evs : List Event) (s : CamState),
    Inv s → Inv (evs.foldl (step cfg) s) := by
  intro evs
  induction evs with
  | nil => intro s h; exact h
  | cons e evs ih => intro s h; exact ih _ (Inv_step cfg s e h)

lemma Inv_run (cfg : Config) (evs : List Event) : Inv (run cfg evs) :=
  Inv_foldl cfg evs init Inv_init

lemma trigger_pic_counters (cfg : Config) (now : Int) (loc : Location)
    (s : CamState) :
    s.camera_trigger_count ≤ (trigger_pic cfg now loc s).camera_trigger_count ∧
    (trigger_pic cfg now loc s).camera_trigger_logged = s.camera_trigger_logged := by
  unfold trigger_pic
  split
  · exact ⟨Nat.le_refl _, rfl⟩
  · exact ⟨Nat.le_succ _, rfl⟩

lemma evaluate_counters (cfg : Config) (now : Int) (loc : Location) (roll : Int)
    (s : CamState) :
    s.camera_trigger_count ≤ (evaluate cfg now loc roll s).camera_trigger_count ∧
    (evaluate cfg now loc roll s).camera_trigger_logged = s.camera_trigger_logged := by
  unfold evaluate
  split
  · exact trigger_pic_counters cfg now loc s
  · exact ⟨Nat.le_refl _, rfl⟩

lemma feedback_update_counters (cfg : Config) (now : Int) (loc : Location)
    (roll pitch yaw : Int) (s : CamState) :
    (feedback_update cfg now loc roll pitch yaw s).camera_trigger_count
        = s.camera_trigger_count ∧
    s.camera_trigger_logged
        ≤ (feedback_update cfg now loc roll pitch yaw s).camera_trigger_logged := by
  unfold feedback_update
  split
  · split
    · exact ⟨rfl, Nat.le_succ _⟩
    · exact ⟨rfl, Nat.le_refl _⟩
  · obtain ⟨hc, hl, -, -⟩ :=
      confirmN_fields (s.camera_trigger_count - s.camera_trigger_logged) now loc roll pitch yaw s
    exact ⟨hc, by omega⟩

lemma step_counters_mono (cfg : Config) (s : CamState) (e : Event) :
    s.camera_trigger_count ≤ (step cfg s e).camera_trigger_count ∧
    s.camera_trigger_logged ≤ (step cfg s e).camera_trigger_logged := by
  cases e with
  | takePicture now loc =>
      simp only [step]
      obtain ⟨h1, h2⟩ := trigger_pic_counters cfg now loc s
      exact ⟨h1, by rw [h2]⟩
  | isr level ts =>
      simp only [step]
      unfold feedback_pin_isr
      split
      · exact ⟨Nat.le_refl _, Nat.le_refl _⟩
      · split
        · exact ⟨Nat.le_refl _, Nat.le_refl _⟩
        · exact ⟨Nat.le_refl _, Nat.le_refl _⟩
  | tick now loc roll pitch yaw =>
      simp only [step]
      unfold update
      obtain ⟨he1, he2⟩ := evaluate_counters cfg now loc roll s
      obtain ⟨hf1, hf2⟩ :=
        feedback_update_counters cfg now loc roll pitch yaw
          (trigger_pic_cleanup (evaluate cfg now loc roll s))
      constructor
      · rw [hf1]
        exact he1
      · refine Nat.le_trans ?_ hf2
        show s.camera_trigger_logged ≤ (evaluate cfg now loc roll s).camera_trigger_logged
        rw [he2]
  | setAutoMode b => exact ⟨Nat.le_refl _, Nat.le_refl _⟩
  | camModeToggle =>
      simp only [step]
      unfold cam_mode_toggle
      split
      · exact ⟨Nat.le_refl _, Nat.le_refl _⟩
      · exact ⟨Nat.le_refl _, Nat.le_refl _⟩

lemma feedback_update_nopin (cfg : Config) (h : using_feedback_pin cfg = false)
    (now : Int) (loc : Location) (roll pitch yaw : Int) (s : CamState)
    (hle : s.camera_trigger_logged ≤ s.camera_trigger_count) :
    (feedback_update cfg now loc roll pitch yaw s).camera_trigger_logged
        = (feedback_update cfg now loc roll pitch yaw s).camera_trigger_count := by
  unfold feedback_update
  rw [h]
  simp only [Bool.false_eq_true, if_false]
  obtain ⟨hc, hl, -, -⟩ :=
    confirmN_fields (s.camera_trigger_count - s.camera_trigger_logged) now loc roll pitch yaw s
  rw [hc, hl]
  omega

lemma update_nopin_eq (cfg : Config) (h : using_feedback_pin cfg = false)
    (now : Int) (loc : Location) (roll pitch yaw : Int) (s : CamState)
    (hInv : Inv s) :
    (update cfg now loc roll pitch yaw s).camera_trigger_logged
        = (update cfg now loc roll pitch yaw s).camera_trigger_count := by
  unfold update
  apply feedback_update_nopin cfg h
  exact (Inv_cleanup _ (Inv_evaluate cfg now loc roll s hInv)).1

/-- C3: in every reachable state the logged-triggers counter never
exceeds the fired-triggers counter; both counters are non-decreasing
under every controller step; and when no feedback pin is configured the
two counters are equal again after every `update` call (in particular
after any update that follows a fire). -/
theorem trigger_counters_invariant (cfg : Config) (evs : List Event) :
    (run cfg evs).camera_trigger_logged ≤ (run cfg evs).camera_trigger_count ∧
    (∀ e : Event,
      (run cfg evs).camera_trigger_count
          ≤ (step cfg (run cfg evs) e).camera_trigger_count ∧
      (run cfg evs).camera_trigger_logged
          ≤ (step cfg (run cfg evs) e).camera_trigger_logged) ∧
    (using_feedback_pin cfg = false →
      ∀ (now : Int) (loc : Location) (roll pitch yaw : Int),
        (update cfg now loc roll pitch yaw (run cfg evs)).camera_trigger_logged
          = (update cfg now loc roll pitch yaw (run cfg evs)).camera_trigger_count) :=
  ⟨(Inv_run cfg evs).1,
   fun e => step_counters_mono cfg (run cfg evs) e,
   fun h now loc roll pitch yaw =>
     update_nopin_eq cfg h now loc roll pitch yaw _ (Inv_run cfg evs)⟩

/-- A short trace: one manual shot at startup. -/
def evs0 : List Event := [Event.takePicture 0 loc0]

/-- C3 witness: with the default no-feedback-pin configuration, after a
fire and a subsequent update the two counters agree. -/
theorem trigger_counters_invariant_witness :
    using_feedback_pin cfgStd = false ∧
    (update cfgStd 100 loc0 0 0 0 (run cfgStd evs0)).camera_trigger_logged
        = (update cfgStd 100 loc0 0 0 0 (run cfgStd evs0)).camera_trigger_count :=
  ⟨by decide,
    (trigger_counters_invariant cfgStd evs0).2.2 (by decide) 100 loc0 0 0 0⟩

/-- C8: every fired trigger pulse produces exactly one trigger-event
log entry (time and position only): in every reachable state the length
of the trigger log equals the fired-triggers counter. -/
theorem trigger_log_counts_fires (cfg : Config) (evs : List Event) :
    (run cfg evs).trigger_log.length = (run cfg evs).camera_trigger_count :=
  (Inv_run cfg evs).2.2.2

lemma map_eq_seqFrom_get :
    ∀ (l : List FeedbackRecord) (a : Nat),
      l.map FeedbackRecord.camera_trigger_logged = seqFrom a l.length →
      ∀ (i : Nat) (h : i < l.length),
        (l.get ⟨i, h⟩).camera_trigger_logged = a + i := by
  intro l
  induction l with
  | nil => intro a _ i h; simp at h
  | cons r l ih =>
      intro a hmap i h
      have hcons : FeedbackRecord.camera_trigger_logged r :: l.map FeedbackRecord.camera_trigger_logged
          = a :: seqFrom (a + 1) l.length := hmap
      have hr : r.camera_trigger_logged = a := (List.cons.injEq _ _ _ _ ▸ hcons).1
      have hl : l.map FeedbackRecord.camera_trigger_logged = seqFrom (a + 1) l.length :=
        (List.cons.injEq _ _ _ _ ▸ hcons).2
      cases i with
      | zero => simpa using hr
      | succ i =>
          have hb : i < l.length := by simpa using h
          have := ih (a + 1) hl i hb
          show (l.get ⟨i, hb⟩).camera_trigger_logged = a + (i + 1)
          omega

/-- C5: the sequence numbers carried by successive feedback records of
confirmed shots are exactly 1, 2, ..., n (the i-th record carries
i + 1, so consecutive records increase by exactly 1 with no gaps), and
each record's sequence number is the value the logged-triggers counter
took immediately after its increment for that confirmation: the record
count always equals the logged counter, and record i was appended as
the counter reached i + 1. -/
theorem feedback_sequence_numbers (cfg : Config) (evs : List Event) :
    (run cfg evs).feedback_records.map FeedbackRecord.camera_trigger_logged
        = seqFrom 1 (run cfg evs).feedback_records.length ∧
    (run cfg evs).feedback_records.length = (run cfg evs).camera_trigger_logged ∧
    (∀ (i : Nat) (hi : i < (run cfg evs).feedback_records.length),
      ((run cfg evs).feedback_records.get ⟨i, hi⟩).camera_trigger_logged = i + 1) := by
  obtain ⟨-, h2, h3, -⟩ := Inv_run cfg evs
  refine ⟨h3, h2, ?_⟩
  intro i hi
  have := map_eq_seqFrom_get (run cfg evs).feedback_records 1 h3 i hi
  omega

lemma isr_same_level (cfg : Config) (level : Bool) (ts : Int) (s : CamState)
    (h : level = s.last_pin_state) :
    feedback_pin_isr cfg level ts s = s := by
  simp [feedback_pin_isr, h]

lemma isr_diff_level (cfg : Config) (hpin : using_feedback_pin cfg = true)
    (level : Bool) (ts : Int) (s : CamState) (h : level ≠ s.last_pin_state) :
    (feedback_pin_isr cfg level ts s).last_pin_state = level ∧
    (feedback_pin_isr cfg level ts s).edges_accepted = s.edges_accepted + 1 := by
  simp [feedback_pin_isr, hpin, h]

/-- C4: debounce of the feedback-pin interrupts (with a feedback pin
configured).  An interrupt reporting the same level as the last
accepted level changes nothing, so two consecutive interrupts with the
same reported level produce at most one accepted edge (the second
interrupt is absorbed); an interrupt reporting the opposite level
always produces an accepted edge. -/
theorem feedback_debounce (cfg : Config) (hpin : using_feedback_pin cfg = true)
    (s : CamState) (level : Bool) (ts1 ts2 : Int) :
    feedback_pin_isr cfg level ts2 (feedback_pin_isr cfg level ts1 s)
        = feedback_pin_isr cfg level ts1 s ∧
    (feedback_pin_isr cfg level ts2 (feedback_pin_isr cfg level ts1 s)).edges_accepted
        ≤ s.edges_accepted + 1 ∧
    (level ≠ s.last_pin_state →
      (feedback_pin_isr cfg level ts1 s).edges_accepted = s.edges_accepted + 1) ∧
    (level = s.last_pin_state → feedback_pin_isr cfg level ts1 s = s) := by
  by_cases h : level = s.last_pin_state
  · rw [isr_same_level cfg level ts1 s h, isr_same_level cfg level ts2 s h]
    exact ⟨rfl, Nat.le_succ _, fun hc => absurd h hc, fun _ => rfl⟩
  · obtain ⟨hl, he⟩ := isr_diff_level cfg hpin level ts1 s h
    have heq := isr_same_level cfg level ts2 (feedback_pin_isr cfg level ts1 s) hl.symm
    rw [heq]
    exact ⟨rfl, by omega, fun _ => he, fun hc => absurd hc h⟩

/-- C4 witness: with feedback pin 54 configured, a rising interrupt
from the startup low state accepts an edge, and an immediate repeat of
the same level is absorbed. -/
theorem feedback_debounce_witness :
    using_feedback_pin cfgPin = true ∧
    feedback_pin_isr cfgPin true 20 (feedback_pin_isr cfgPin true 10 init)
        = feedback_pin_isr cfgPin true 10 init ∧
    (feedback_pin_isr cfgPin true 10 init).edges_accepted = init.edges_accepted + 1 := by
  have h := feedback_debounce cfgPin (by decide) init true 10 20
  exact ⟨by decide, h.1, h.2.2.1 (by decide)⟩

/-- C6: with feedback pin ≤ 0 the feedback-capture component is inert
and every fired trigger is immediately deemed confirmed:
`using_feedback_pin` is false, the feedback-pin interrupt changes no
state, and after every `update` from any reachable state the logged
counter and the feedback-record count both equal the fired counter, so
the downstream logging/telemetry path has run for each fired
trigger. -/
theorem no_feedback_pin_confirms_immediately (cfg : Config)
    (hpin : cfg.feedback_pin ≤ 0) :
    using_feedback_pin cfg = false ∧
    (∀ (level : Bool) (ts : Int) (s : CamState),
      feedback_pin_isr cfg level ts s = s) ∧
    (∀ (evs : List Event) (now : Int) (loc : Location) (roll pitch yaw : Int),
      (update cfg now loc roll pitch yaw (run cfg evs)).camera_trigger_logged
          = (update cfg now loc roll pitch yaw (run cfg evs)).camera_trigger_count ∧
      (update cfg now loc roll pitch yaw (run cfg evs)).feedback_records.length
          = (update cfg now loc roll pitch yaw (run cfg evs)).camera_trigger_count) := by
  have hfb : using_feedback_pin cfg = false := by
    unfold using_feedback_pin
    simp only [decide_eq_false_iff_not, not_lt]
    omega
  refine ⟨hfb, ?_, ?_⟩
  · intro level ts s
    unfold feedback_pin_isr
    rw [hfb]
    rfl
  · intro evs now loc roll pitch yaw
    have h1 := update_nopin_eq cfg hfb now loc roll pitch yaw _ (Inv_run cfg evs)
    have h2 := Inv_update cfg now loc roll pitch yaw _ (Inv_run cfg evs)
    exact ⟨h1, h2.2.1.trans h1⟩

/-- C6 witness: the default configuration has feedback pin -1 ≤ 0 and
`using_feedback_pin` reports false. -/
theorem no_feedback_pin_witness :
    cfgStd.feedback_pin ≤ 0 ∧ using_feedback_pin cfgStd = false :=
  ⟨by decide, (no_feedback_pin_confirms_immediately cfgStd (by decide)).1⟩

lemma confirm_one_set_auto (ts : Int) (loc : Location) (roll pitch yaw : Int)
    (s : CamState) (b : Bool) :
    confirm_one ts loc roll pitch yaw (set_is_auto_mode b s)
      = set_is_auto_mode b (confirm_one ts loc roll pitch yaw s) :=
  rfl

lemma confirmN_set_auto (k : Nat) (ts : Int) (loc : Location) (roll pitch yaw : Int) :
    ∀ (s : CamState) (b : Bool),
      confirmN k ts loc roll pitch yaw (set_is_auto_mode b s)
        = set_is_auto_mode b (confirmN k ts loc roll pitch yaw s) := by
  induction k with
  | zero => intro s b; rfl
  | succ k ih =>
      intro s b
      rw [confirmN_succ, confirmN_succ, confirm_one_set_auto]
      exact ih _ b

/-- C9: `set_is_auto_mode b` sets the in-auto-mode flag to exactly `b`
and modifies no other field of the controller state; and the flag is
consumed only by the distance-trigger auto-mode condition: the trigger
actuator, the feedback interrupt, the deferred feedback check and the
alternate-function toggle all commute with setting the flag, and with
the auto-mode-only restriction disabled the distance-trigger decision
is unchanged by the flag. -/
theorem set_is_auto_mode_frame (b : Bool) (s : CamState) :
    (set_is_auto_mode b s).is_in_auto_mode = b ∧
    (set_is_auto_mode b s).trigger_counter = s.trigger_counter ∧
    (set_is_auto_mode b s).trigger_counter_cam_function
        = s.trigger_counter_cam_function ∧
    (set_is_auto_mode b s).last_photo_time = s.last_photo_time ∧
    (set_is_auto_mode b s).last_location = s.last_location ∧
    (set_is_auto_mode b s).image_index = s.image_index ∧
    (set_is_auto_mode b s).camera_trigger_count = s.camera_trigger_count ∧
    (set_is_auto_mode b s).camera_trigger_logged = s.camera_trigger_logged ∧
    (set_is_auto_mode b s).edges_accepted = s.edges_accepted ∧
    (set_is_auto_mode b s).edge_pending = s.edge_pending ∧
    (set_is_auto_mode b s).feedback_trigger_timestamp_us
        = s.feedback_trigger_timestamp_us ∧
    (set_is_auto_mode b s).feedback_records = s.feedback_records ∧
    (set_is_auto_mode b s).trigger_log = s.trigger_log ∧
    (set_is_auto_mode b s).last_pin_state = s.last_pin_state ∧
    (∀ (cfg : Config) (now : Int) (loc : Location),
      trigger_pic cfg now loc (set_is_auto_mode b s)
        = set_is_auto_mode b (trigger_pic cfg now loc s)) ∧
    trigger_pic_cleanup (set_is_auto_mode b s)
        = set_is_auto_mode b (trigger_pic_cleanup s) ∧
    (∀ (cfg : Config) (level : Bool) (ts : Int),
      feedback_pin_isr cfg level ts (set_is_auto_mode b s)
        = set_is_auto_mode b (feedback_pin_isr cfg level ts s)) ∧
    (∀ (cfg : Config) (now : Int) (loc : Location) (roll pitch yaw : Int),
      feedback_update cfg now loc roll pitch yaw (set_is_auto_mode b s)
        = set_is_auto_mode b (feedback_update cfg now loc roll pitch yaw s)) ∧
    (∀ cfg : Config,
      cam_mode_toggle cfg (set_is_auto_mode b s)
        = set_is_auto_mode b (cam_mode_toggle cfg s)) ∧
    (∀ (cfg : Config) (now : Int) (loc : Location) (roll : Int),
      cfg.auto_mode_only = false →
        shouldFire cfg now loc roll (set_is_auto_mode b s)
          = shouldFire cfg now loc roll s) := by
  refine ⟨rfl, rfl, rfl, rfl, rfl, rfl, rfl, rfl, rfl, rfl, rfl, rfl, rfl, rfl,
    ?_, rfl, ?_, ?_, ?_, ?_⟩
  · intro cfg now loc
    by_cases h : s.trigger_counter = 0
    · simp [trigger_pic, set_is_auto_mode, h]
    · simp [trigger_pic, set_is_auto_mode, h]
  · intro cfg level ts
    by_cases hu : using_feedback_pin cfg = true
    · by_cases h : level = s.last_pin_state
      · simp [feedback_pin_isr, set_is_auto_mode, hu, h]
      · simp [feedback_pin_isr, set_is_auto_mode, hu, h]
    · have hu2 : using_feedback_pin cfg = false := by simpa using hu
      simp [feedback_pin_isr, hu2]
  · intro cfg now loc roll pitch yaw
    by_cases hu : using_feedback_pin cfg = true
    · by_cases hg :
          (s.edge_pending && decide (s.camera_trigger_logged < s.camera_trigger_count)) = true
      · simp [feedback_update, set_is_auto_mode, hu, hg, confirm_one]
      · simp [feedback_update, set_is_auto_mode, hu, hg]
    · have hu2 : using_feedback_pin cfg = false := by simpa using hu
      unfold feedback_update
      rw [hu2]
      simp only [Bool.false_eq_true, if_false]
      exact confirmN_set_auto _ now loc roll pitch yaw s b
  · intro cfg
    by_cases h : s.trigger_counter_cam_function = 0
    · simp [cam_mode_toggle, set_is_auto_mode, h]
    · simp [cam_mode_toggle, set_is_auto_mode, h]
  · intro cfg now loc roll h
    simp [shouldFire, distOK, set_is_auto_mode, h]

/-- C9 witness: setting the flag true from startup sets exactly the
flag, and with the auto-mode-only restriction off the distance-trigger
decision is unchanged. -/
theorem set_is_auto_mode_frame_witness :
    (set_is_auto_mode true init).is_in_auto_mode = true ∧
    cfgStd.auto_mode_only = false ∧
    shouldFire cfgStd 0 loc0 0 (set_is_auto_mode true init)
        = shouldFire cfgStd 0 loc0 0 init := by
  obtain ⟨h1, -, -, -, -, -, -, -, -, -, -, -, -, -, -, -, -, -, -, hlast⟩ :=
    set_is_auto_mode_frame true init
  exact ⟨h1, by decide, hlast cfgStd 0 loc0 0 (by decide)⟩

end APCamera
